import Mathlib

/-
Shallow embedding of the sentiment-analysis service of this repository:
the rule-based scorers of the two simple servers, their single and batch
endpoints, and the model-backed server with its bundle loading and its
prediction pipeline.  Machine reals are modelled as rationals, and the
ASCII fragment of the Python text functions is modelled explicitly.
-/

namespace ImdbModel

/-- Sentiment label returned by every scorer. -/
inductive Sentiment where
  | positive
  | negative
  | neutral
deriving DecidableEq, Repr

/-- ASCII whitespace, the characters recognised by the Python functions
str.split and str.strip when called with no arguments. -/
def pyIsSpace (c : Char) : Bool :=
  c == ' ' || c == '\t' || c == '\n' || c == '\r' || c == '\x0b' || c == '\x0c'

/-- Word characters of the regex class backslash-w over ASCII:
alphanumeric or underscore. -/
def pyIsWord (c : Char) : Bool :=
  c.isAlphanum || c == '_'

/-- Python str.strip: drop leading and trailing whitespace. -/
def pyStrip (s : String) : String :=
  String.mk (((s.data.dropWhile pyIsSpace).reverse.dropWhile pyIsSpace).reverse)

/-- Lower-case the text and delete every character that is neither a word
character nor whitespace: text.lower() followed by the re.sub call that
removes the complement of the classes backslash-w and backslash-s. -/
def cleanChars (s : String) : List Char :=
  (s.data.map Char.toLower).filter (fun c => pyIsWord c || pyIsSpace c)

/-- Python str.split with no separator: split on runs of whitespace and
discard empty pieces.  The accumulator holds the current word reversed. -/
def splitWs : List Char → List Char → List (List Char)
  | [], acc => if acc = [] then [] else [acc.reverse]
  | c :: cs, acc =>
    if pyIsSpace c then
      if acc = [] then splitWs cs [] else acc.reverse :: splitWs cs []
    else splitWs cs (c :: acc)

/-- Token sequence of the cleaned, lower-cased text. -/
def pyTokens (s : String) : List String :=
  (splitWs (cleanChars s) []).map String.mk

/-- Analysis result of the rule-based scorer, as returned by
simple_sentiment_analysis of src/simple_fastapi_api.py; the Flask variant
omits the total_words field from its dictionary. -/
structure SAResult where
  sentiment : Sentiment
  confidence : ℚ
  positive_words_found : ℕ
  negative_words_found : ℕ
  total_words : ℕ
deriving DecidableEq, Repr

/-- Core of simple_sentiment_analysis, identical in both simple servers up
to the word lists: count, with repetition, the tokens found in each word
list and apply the decision rule of the source. -/
def analyze_words (positiveWords negativeWords words : List String) : SAResult :=
  let positive_count := words.countP (fun w => decide (w ∈ positiveWords))
  let negative_count := words.countP (fun w => decide (w ∈ negativeWords))
  if positive_count > negative_count then
    { sentiment := Sentiment.positive,
      confidence := min ((6 : ℚ)/10 + (((positive_count - negative_count : ℕ)) : ℚ) * (1/10)) (95/100),
      positive_words_found := positive_count,
      negative_words_found := negative_count,
      total_words := words.length }
  else if negative_count > positive_count then
    { sentiment := Sentiment.negative,
      confidence := min ((6 : ℚ)/10 + (((negative_count - positive_count : ℕ)) : ℚ) * (1/10)) (95/100),
      positive_words_found := positive_count,
      negative_words_found := negative_count,
      total_words := words.length }
  else
    { sentiment := Sentiment.neutral,
      confidence := 1/2,
      positive_words_found := positive_count,
      negative_words_found := negative_count,
      total_words := words.length }

namespace SimpleFastapi

/-- Positive word list of src/simple_fastapi_api.py, lines 74 to 78. -/
def positive_words : List String :=
  ["good", "great", "excellent", "amazing", "wonderful", "fantastic",
   "awesome", "brilliant", "outstanding", "superb", "perfect", "love",
   "like", "enjoy", "happy", "pleased", "satisfied", "impressive",
   "remarkable", "spectacular", "marvelous", "terrific", "incredible",
   "best", "favorite", "recommend", "enjoyable", "entertaining"]

/-- Negative word list of src/simple_fastapi_api.py, lines 80 to 84. -/
def negative_words : List String :=
  ["bad", "terrible", "awful", "horrible", "disgusting", "hate",
   "dislike", "boring", "dull", "disappointing", "poor", "worst",
   "pathetic", "useless", "annoying", "frustrating", "sad", "angry",
   "upset", "depressing", "mediocre", "uninspiring", "inadequate",
   "waste", "stupid", "ridiculous", "pointless", "confusing"]

/-- Function simple_sentiment_analysis of src/simple_fastapi_api.py. -/
def simple_sentiment_analysis (text : String) : SAResult :=
  analyze_words positive_words negative_words (pyTokens text)

end SimpleFastapi

namespace SimpleFlask

/-- Positive word list of src/simple_flask_api.py, lines 31 to 34. -/
def positive_words : List String :=
  ["good", "great", "excellent", "amazing", "wonderful", "fantastic",
   "awesome", "brilliant", "outstanding", "superb", "perfect", "love",
   "like", "enjoy", "happy", "pleased", "satisfied", "impressive",
   "remarkable", "spectacular", "marvelous", "terrific", "incredible"]

/-- Negative word list of src/simple_flask_api.py, lines 36 to 39. -/
def negative_words : List String :=
  ["bad", "terrible", "awful", "horrible", "disgusting", "hate",
   "dislike", "boring", "dull", "disappointing", "poor", "worst",
   "pathetic", "useless", "annoying", "frustrating", "sad", "angry",
   "upset", "depressing", "mediocre", "uninspiring", "inadequate"]

/-- Analysis dictionary of simple_sentiment_analysis in
src/simple_flask_api.py, which has no total_words field. -/
structure FlaskResult where
  sentiment : Sentiment
  confidence : ℚ
  positive_words_found : ℕ
  negative_words_found : ℕ
deriving DecidableEq, Repr

/-- Function simple_sentiment_analysis of src/simple_flask_api.py. -/
def simple_sentiment_analysis (text : String) : FlaskResult :=
  let r := analyze_words positive_words negative_words (pyTokens text)
  { sentiment := r.sentiment,
    confidence := r.confidence,
    positive_words_found := r.positive_words_found,
    negative_words_found := r.negative_words_found }

end SimpleFlask

namespace SimpleFastapi

/-- Response of the predict endpoint of src/simple_fastapi_api.py; the
timestamp comes from the clock, passed here as the argument now. -/
structure SentimentResponse where
  sentiment : Sentiment
  confidence : ℚ
  text : String
  positive_words_found : ℕ
  negative_words_found : ℕ
  total_words : ℕ
  timestamp : String
deriving DecidableEq, Repr

/-- Handler predict of src/simple_fastapi_api.py, lines 125 to 156: strip
the text, reject it when empty, otherwise analyze and build the response. -/
def predict (now : String) (raw : String) : Except String SentimentResponse :=
  let text := pyStrip raw
  if text = "" then Except.error ("Text cannot be empty")
  else
    let r := simple_sentiment_analysis text
    Except.ok
      { sentiment := r.sentiment,
        confidence := r.confidence,
        text := text,
        positive_words_found := r.positive_words_found,
        negative_words_found := r.negative_words_found,
        total_words := r.total_words,
        timestamp := now }

/-- Entry of the results list built by predict_batch. -/
structure BatchItem where
  text : String
  sentiment : Sentiment
  confidence : ℚ
  positive_words_found : ℕ
  negative_words_found : ℕ
  total_words : ℕ
deriving DecidableEq, Repr

/-- Summary dictionary built by predict_batch. -/
structure BatchSummary where
  total_texts : ℕ
  positive_count : ℕ
  negative_count : ℕ
  neutral_count : ℕ
  average_confidence : ℚ
deriving DecidableEq, Repr

/-- Response of the predict_batch endpoint. -/
structure BatchResponse where
  results : List BatchItem
  summary : BatchSummary
  timestamp : String
deriving DecidableEq, Repr

/-- List comprehension of predict_batch, line 176: strip every text and
keep the non-empty ones. -/
def validTexts (rawTexts : List String) : List String :=
  (rawTexts.map pyStrip).filter (fun t => decide (t ≠ ""))

/-- Result entry built for one text inside the loop of predict_batch. -/
def mkBatchItem (t : String) : BatchItem :=
  let r := simple_sentiment_analysis t
  { text := t,
    sentiment := r.sentiment,
    confidence := r.confidence,
    positive_words_found := r.positive_words_found,
    negative_words_found := r.negative_words_found,
    total_words := r.total_words }

/-- Handler predict_batch of src/simple_fastapi_api.py, lines 164 to 219:
filter out blank texts, reject the batch when none remain, analyze every
remaining text, and build the summary with the mean confidence. -/
def predict_batch (now : String) (rawTexts : List String) : Except String BatchResponse :=
  let texts := validTexts rawTexts
  if texts = [] then Except.error ("No valid texts provided")
  else
    let results := texts.map mkBatchItem
    Except.ok
      { results := results,
        summary :=
          { total_texts := results.length,
            positive_count := results.countP (fun r => decide (r.sentiment = Sentiment.positive)),
            negative_count := results.countP (fun r => decide (r.sentiment = Sentiment.negative)),
            neutral_count := results.countP (fun r => decide (r.sentiment = Sentiment.neutral)),
            average_confidence := (results.map (fun r => r.confidence)).sum / (results.length : ℚ) },
        timestamp := now }

end SimpleFastapi

namespace ModelApi

/-- Fitted probabilistic binary classifier of the bundle, consumed through
its two methods used in predict_sentiment of src/fastapi_api.py: predict
and predict_proba on a single feature vector of type F. -/
structure Classifier (F : Type) where
  cpredict : F → ℤ
  cproba : F → List ℚ

/-- Result dictionary of predict_sentiment of src/fastapi_api.py. -/
structure ModelPrediction where
  sentiment : Sentiment
  confidence : ℚ
  processed_text : String
  original_text : String
deriving DecidableEq, Repr

/-- Module-level globals of src/fastapi_api.py, lines 69 to 72: the four
bundle components, each possibly still None. -/
structure ModelState (F D : Type) where
  model : Option (Classifier F)
  vectorizer : Option (String → F)
  preprocessing_functions : Option (String → String)
  metadata : Option D

/-- Initial global state: all four components are None. -/
def initialState (F D : Type) : ModelState F D :=
  { model := none, vectorizer := none, preprocessing_functions := none, metadata := none }

/-- Function load_model_components of src/fastapi_api.py, lines 74 to 96:
assign the four globals in order, stopping at the first artifact whose
load fails (modelled as a None argument), and report overall success. -/
def load_model_components (st : ModelState F D) (am : Option (Classifier F))
    (av : Option (String → F)) (ap : Option (String → String)) (ad : Option D) :
    ModelState F D × Bool :=
  match am with
  | none => (st, false)
  | some m =>
    let st1 : ModelState F D := { st with model := some m }
    match av with
    | none => (st1, false)
    | some v =>
      let st2 : ModelState F D := { st1 with vectorizer := some v }
      match ap with
      | none => (st2, false)
      | some p =>
        let st3 : ModelState F D := { st2 with preprocessing_functions := some p }
        match ad with
        | none => (st3, false)
        | some d => ({ st3 with metadata := some d }, true)

/-- Maximum of a list of rationals, as numpy max over the probability
vector; None on the empty list, which numpy rejects. -/
def listMax : List ℚ → Option ℚ
  | [] => none
  | x :: xs =>
    match listMax xs with
    | none => some x
    | some m => some (max x m)

/-- Function predict_sentiment of src/fastapi_api.py, lines 98 to 123:
preprocess, vectorize, predict the class and take the maximum of the
probability vector; any fault inside the pipeline, including a missing
component, surfaces as the error of line 123. -/
def predict_sentiment (st : ModelState F D) (text : String) : Except String ModelPrediction :=
  match st.preprocessing_functions, st.vectorizer, st.model with
  | some pre, some vec, some clf =>
    let processed := pre text
    let tfidf := vec processed
    match listMax (clf.cproba tfidf) with
    | none => Except.error ("Error making prediction")
    | some confidence =>
      Except.ok
        { sentiment := if clf.cpredict tfidf = 1 then Sentiment.positive else Sentiment.negative,
          confidence := confidence,
          processed_text := processed,
          original_text := text }
  | _, _, _ => Except.error ("Error making prediction")

/-- Handler predict of src/fastapi_api.py, lines 146 to 172: the bundle
check of line 157 tests only whether the model global is None, before any
pipeline computation. -/
def predict (st : ModelState F D) (text : String) : Except String ModelPrediction :=
  if st.model.isNone then Except.error ("Model not loaded")
  else predict_sentiment st text

/-- Loop body of batch_predict of src/fastapi_api.py, lines 189 to 201:
each text is scored independently and its entry carries the input index;
a failing item becomes an error entry at that index. -/
def batch_predict_go (st : ModelState F D) : ℕ → List String → List (ℕ × Except String ModelPrediction)
  | _, [] => []
  | i, t :: ts => (i, predict_sentiment st t) :: batch_predict_go st (i + 1) ts

/-- Handler batch_predict of src/fastapi_api.py, lines 174 to 207. -/
def batch_predict (st : ModelState F D) (texts : List String) :
    Except String (List (ℕ × Except String ModelPrediction)) :=
  if st.model.isNone then Except.error ("Model not loaded")
  else Except.ok (batch_predict_go st 0 texts)

end ModelApi

/-- Projection of the single-prediction response onto every field except
the timestamp. -/
def responseCore (r : SimpleFastapi.SentimentResponse) :
    Sentiment × ℚ × String × ℕ × ℕ × ℕ :=
  (r.sentiment, r.confidence, r.text, r.positive_words_found,
   r.negative_words_found, r.total_words)

/-- Words present in the positive list of the simple FastAPI server but
absent from the positive list of the simple Flask server. -/
def extra_positive_words : List String :=
  ["best", "favorite", "recommend", "enjoyable", "entertaining"]

/-- Words present in the negative list of the simple FastAPI server but
absent from the negative list of the simple Flask server. -/
def extra_negative_words : List String :=
  ["waste", "stupid", "ridiculous", "pointless", "confusing"]

/-- Concrete binary classifier over a trivial feature type, used to
instantiate universally quantified statements about the model server. -/
def wClassifier : ModelApi.Classifier Unit :=
  { cpredict := fun _ => 1, cproba := fun _ => [(1 : ℚ)/10, 9/10] }

/-- Concrete fully loaded global state of the model server. -/
def wState : ModelApi.ModelState Unit Unit :=
  { model := some wClassifier,
    vectorizer := some (fun _ => ()),
    preprocessing_functions := some (fun s => s),
    metadata := some () }

end ImdbModel

namespace ImdbModel

/-- Unfolding of analyze_words into its three branches. -/
theorem analyze_words_spec (pos neg ws : List String) :
    analyze_words pos neg ws =
      (if ws.countP (fun w => decide (w ∈ neg)) < ws.countP (fun w => decide (w ∈ pos)) then
        { sentiment := Sentiment.positive,
          confidence := min ((6 : ℚ)/10 + (((ws.countP (fun w => decide (w ∈ pos))
              - ws.countP (fun w => decide (w ∈ neg)) : ℕ)) : ℚ) * (1/10)) (95/100),
          positive_words_found := ws.countP (fun w => decide (w ∈ pos)),
          negative_words_found := ws.countP (fun w => decide (w ∈ neg)),
          total_words := ws.length }
      else if ws.countP (fun w => decide (w ∈ pos)) < ws.countP (fun w => decide (w ∈ neg)) then
        { sentiment := Sentiment.negative,
          confidence := min ((6 : ℚ)/10 + (((ws.countP (fun w => decide (w ∈ neg))
              - ws.countP (fun w => decide (w ∈ pos)) : ℕ)) : ℚ) * (1/10)) (95/100),
          positive_words_found := ws.countP (fun w => decide (w ∈ pos)),
          negative_words_found := ws.countP (fun w => decide (w ∈ neg)),
          total_words := ws.length }
      else
        { sentiment := Sentiment.neutral,
          confidence := 1/2,
          positive_words_found := ws.countP (fun w => decide (w ∈ pos)),
          negative_words_found := ws.countP (fun w => decide (w ∈ neg)),
          total_words := ws.length }) := rfl

/-- Bounds of the saturating confidence expression. -/
theorem conf_bounds (d : ℕ) :
    (6 : ℚ)/10 ≤ min ((6 : ℚ)/10 + (d : ℚ) * (1/10)) (95/100)
    ∧ min ((6 : ℚ)/10 + (d : ℚ) * (1/10)) (95/100) ≤ 95/100 := by
  constructor
  · apply le_min
    · have h0 : (0 : ℚ) ≤ (d : ℚ) * (1/10) :=
        mul_nonneg (Nat.cast_nonneg d) (by norm_num)
      linarith
    · norm_num
  · exact min_le_right _ _

/-- C1: for every input text, the lexicon scorer counts, with repetition,
the tokens of the normalized text occurring in the positive and in the
negative word list, and decides exactly: positive with confidence
min(0.6 + 0.1 * (positive - negative), 0.95) when positive wins, negative
symmetrically, and neutral with confidence 0.5 on a tie. -/
theorem lexicon_decision_rule (text : String) (p n : ℕ)
    (hp : p = ((pyTokens text).filter (fun w => decide (w ∈ SimpleFastapi.positive_words))).length)
    (hn : n = ((pyTokens text).filter (fun w => decide (w ∈ SimpleFastapi.negative_words))).length) :
    (SimpleFastapi.simple_sentiment_analysis text).positive_words_found = p
    ∧ (SimpleFastapi.simple_sentiment_analysis text).negative_words_found = n
    ∧ (SimpleFastapi.simple_sentiment_analysis text).total_words = (pyTokens text).length
    ∧ (n < p → (SimpleFastapi.simple_sentiment_analysis text).sentiment = Sentiment.positive
        ∧ (SimpleFastapi.simple_sentiment_analysis text).confidence
            = min ((6 : ℚ)/10 + (1/10) * ((p : ℚ) - (n : ℚ))) (95/100))
    ∧ (p < n → (SimpleFastapi.simple_sentiment_analysis text).sentiment = Sentiment.negative
        ∧ (SimpleFastapi.simple_sentiment_analysis text).confidence
            = min ((6 : ℚ)/10 + (1/10) * ((n : ℚ) - (p : ℚ))) (95/100))
    ∧ (p = n → (SimpleFastapi.simple_sentiment_analysis text).sentiment = Sentiment.neutral
        ∧ (SimpleFastapi.simple_sentiment_analysis text).confidence = 1/2) := by
  have hp' : (pyTokens text).countP (fun w => decide (w ∈ SimpleFastapi.positive_words)) = p := by
    rw [hp, List.countP_eq_length_filter]
  have hn' : (pyTokens text).countP (fun w => decide (w ∈ SimpleFastapi.negative_words)) = n := by
    rw [hn, List.countP_eq_length_filter]
  have key : SimpleFastapi.simple_sentiment_analysis text =
      (if n < p then
        { sentiment := Sentiment.positive,
          confidence := min ((6 : ℚ)/10 + (((p - n : ℕ)) : ℚ) * (1/10)) (95/100),
          positive_words_found := p, negative_words_found := n,
          total_words := (pyTokens text).length }
      else if p < n then
        { sentiment := Sentiment.negative,
          confidence := min ((6 : ℚ)/10 + (((n - p : ℕ)) : ℚ) * (1/10)) (95/100),
          positive_words_found := p, negative_words_found := n,
          total_words := (pyTokens text).length }
      else
        { sentiment := Sentiment.neutral, confidence := 1/2,
          positive_words_found := p, negative_words_found := n,
          total_words := (pyTokens text).length }) := by
    rw [SimpleFastapi.simple_sentiment_analysis, analyze_words_spec, hp', hn']
  rcases Nat.lt_trichotomy p n with h | h | h
  · have hnp : ¬ n < p := by omega
    rw [key, if_neg hnp, if_pos h]
    refine ⟨rfl, rfl, rfl, ?_, ?_, ?_⟩
    · intro hc; exact absurd hc hnp
    · intro _
      refine ⟨rfl, ?_⟩
      show min ((6 : ℚ)/10 + (((n - p : ℕ)) : ℚ) * (1/10)) (95/100) = _
      rw [Nat.cast_sub h.le]
      ring_nf
    · intro he; omega
  · have hnp : ¬ n < p := by omega
    have hpn : ¬ p < n := by omega
    rw [key, if_neg hnp, if_neg hpn]
    refine ⟨rfl, rfl, rfl, ?_, ?_, ?_⟩
    · intro hc; exact absurd hc hnp
    · intro hc; exact absurd hc hpn
    · intro _; exact ⟨rfl, rfl⟩
  · have hpn : ¬ p < n := by omega
    rw [key, if_pos h]
    refine ⟨rfl, rfl, rfl, ?_, ?_, ?_⟩
    · intro _
      refine ⟨rfl, ?_⟩
      show min ((6 : ℚ)/10 + (((p - n : ℕ)) : ℚ) * (1/10)) (95/100) = _
      rw [Nat.cast_sub h.le]
      ring_nf
    · intro hc; exact absurd hc hpn
    · intro he; omega

/-- Witness for C1 at the example text of the specification. -/
theorem lexicon_decision_rule_witness :
    (2 : ℕ) = ((pyTokens ("This movie was great and amazing")).filter
        (fun w => decide (w ∈ SimpleFastapi.positive_words))).length
    ∧ (SimpleFastapi.simple_sentiment_analysis ("This movie was great and amazing")).sentiment
        = Sentiment.positive
    ∧ (SimpleFastapi.simple_sentiment_analysis ("This movie was great and amazing")).confidence
        = 8/10 := by
  have h := lexicon_decision_rule ("This movie was great and amazing") 2 0
    (by decide) (by decide)
  refine ⟨by decide, (h.2.2.2.1 (by omega)).1, ?_⟩
  have hc := (h.2.2.2.1 (by omega)).2
  rw [hc]
  rw [min_eq_left (by norm_num)]
  norm_num

/-- C2: for every list of tokens given to the lexicon scorer, the
confidence lies in the set containing 0.5 together with the interval from
0.6 to 0.95, hence in the unit interval, and it equals 0.5 exactly when
the positive and negative counts are equal, which is also exactly when
the sentiment is neutral. -/
theorem lexicon_confidence_range (positiveWords negativeWords words : List String) :
    ((analyze_words positiveWords negativeWords words).confidence = 1/2
      ∨ ((6 : ℚ)/10 ≤ (analyze_words positiveWords negativeWords words).confidence
          ∧ (analyze_words positiveWords negativeWords words).confidence ≤ 95/100))
    ∧ ((analyze_words positiveWords negativeWords words).confidence = 1/2
        ↔ (analyze_words positiveWords negativeWords words).positive_words_found
            = (analyze_words positiveWords negativeWords words).negative_words_found)
    ∧ ((analyze_words positiveWords negativeWords words).sentiment = Sentiment.neutral
        ↔ (analyze_words positiveWords negativeWords words).positive_words_found
            = (analyze_words positiveWords negativeWords words).negative_words_found)
    ∧ 0 ≤ (analyze_words positiveWords negativeWords words).confidence
    ∧ (analyze_words positiveWords negativeWords words).confidence ≤ 1 := by
  rw [analyze_words_spec]
  rcases Nat.lt_trichotomy (words.countP (fun w => decide (w ∈ positiveWords)))
      (words.countP (fun w => decide (w ∈ negativeWords))) with h | h | h
  · have hnp : ¬ words.countP (fun w => decide (w ∈ negativeWords))
        < words.countP (fun w => decide (w ∈ positiveWords)) := by omega
    rw [if_neg hnp, if_pos h]
    dsimp only
    have hb := conf_bounds (words.countP (fun w => decide (w ∈ negativeWords))
      - words.countP (fun w => decide (w ∈ positiveWords)))
    refine ⟨Or.inr hb, ?_, ?_, by linarith [hb.1], by linarith [hb.2]⟩
    · constructor
      · intro hc; exfalso; rw [hc] at hb; linarith [hb.1]
      · intro hc; omega
    · constructor
      · intro hc; exact absurd hc (by simp)
      · intro hc; omega
  · have hnp : ¬ words.countP (fun w => decide (w ∈ negativeWords))
        < words.countP (fun w => decide (w ∈ positiveWords)) := by omega
    have hpn : ¬ words.countP (fun w => decide (w ∈ positiveWords))
        < words.countP (fun w => decide (w ∈ negativeWords)) := by omega
    rw [if_neg hnp, if_neg hpn]
    dsimp only
    refine ⟨Or.inl rfl, ?_, ?_, by norm_num, by norm_num⟩
    · exact ⟨fun _ => h, fun _ => rfl⟩
    · exact ⟨fun _ => h, fun _ => rfl⟩
  · have hpn : ¬ words.countP (fun w => decide (w ∈ positiveWords))
        < words.countP (fun w => decide (w ∈ negativeWords)) := by omega
    rw [if_pos h]
    dsimp only
    have hb := conf_bounds (words.countP (fun w => decide (w ∈ positiveWords))
      - words.countP (fun w => decide (w ∈ negativeWords)))
    refine ⟨Or.inr hb, ?_, ?_, by linarith [hb.1], by linarith [hb.2]⟩
    · constructor
      · intro hc; exfalso; rw [hc] at hb; linarith [hb.1]
      · intro hc; omega
    · constructor
      · intro hc; exact absurd hc (by simp)
      · intro hc; omega

/-- Witness for C2 at the tied example of the specification. -/
theorem lexicon_confidence_range_witness :
    ((analyze_words SimpleFastapi.positive_words SimpleFastapi.negative_words
        ["good", "bad"]).confidence = 1/2
      ∨ ((6 : ℚ)/10 ≤ (analyze_words SimpleFastapi.positive_words SimpleFastapi.negative_words
            ["good", "bad"]).confidence
          ∧ (analyze_words SimpleFastapi.positive_words SimpleFastapi.negative_words
              ["good", "bad"]).confidence ≤ 95/100))
    ∧ (analyze_words SimpleFastapi.positive_words SimpleFastapi.negative_words
        ["good", "bad"]).sentiment = Sentiment.neutral :=
  ⟨(lexicon_confidence_range SimpleFastapi.positive_words SimpleFastapi.negative_words
      ["good", "bad"]).1,
   ((lexicon_confidence_range SimpleFastapi.positive_words SimpleFastapi.negative_words
      ["good", "bad"]).2.2.1).mpr (by decide)⟩

/-- Length of the batch loop output. -/
theorem batch_go_length {F D : Type} (st : ModelApi.ModelState F D) (k : ℕ) (ts : List String) :
    (ModelApi.batch_predict_go st k ts).length = ts.length := by
  induction ts generalizing k with
  | nil => rfl
  | cons t ts ih => simp [ModelApi.batch_predict_go, ih]

/-- Entry of the batch loop output at each position. -/
theorem batch_go_get {F D : Type} (st : ModelApi.ModelState F D) :
    ∀ (ts : List String) (k i : ℕ),
      (ModelApi.batch_predict_go st k ts)[i]?
        = (ts[i]?).map (fun t => (k + i, ModelApi.predict_sentiment st t)) := by
  intro ts
  induction ts with
  | nil => intro k i; simp [ModelApi.batch_predict_go]
  | cons t ts ih =>
    intro k i
    cases i with
    | zero => simp [ModelApi.batch_predict_go]
    | succ j =>
      have hk : k + 1 + j = k + (j + 1) := by omega
      simp only [ModelApi.batch_predict_go, List.getElem?_cons_succ, ih (k + 1) j, hk]

/-- C3: under the default policy with a loaded model, the batch endpoint
scores every item independently: the output has exactly the length of the
input, the entry at each index carries that index, and its outcome is the
scoring of the input text at the same index, so one failing item becomes
an error entry at its index and does not disturb any other entry. -/
theorem batch_record_error_policy {F D : Type} (st : ModelApi.ModelState F D)
    (texts : List String) (hm : st.model.isSome = true) :
    ∃ entries, ModelApi.batch_predict st texts = Except.ok entries
      ∧ entries.length = texts.length
      ∧ ∀ i : ℕ, entries[i]?
          = (texts[i]?).map (fun t => (i, ModelApi.predict_sentiment st t)) := by
  cases hst : st.model with
  | none => rw [hst] at hm; cases hm
  | some m =>
    refine ⟨ModelApi.batch_predict_go st 0 texts, ?_, batch_go_length st 0 texts, ?_⟩
    · simp [ModelApi.batch_predict, hst]
    · intro i
      simpa using batch_go_get st texts 0 i

/-- Witness for C3: a three-item batch, one item of which the scorer
rejects, still yields three indexed entries. -/
theorem batch_record_error_policy_witness :
    ∃ entries, ModelApi.batch_predict wState ["Great film", "", "Terrible film"] = Except.ok entries
      ∧ entries.length = (["Great film", "", "Terrible film"] : List String).length
      ∧ ∀ i : ℕ, entries[i]?
          = ((["Great film", "", "Terrible film"] : List String)[i]?).map
              (fun t => (i, ModelApi.predict_sentiment wState t)) :=
  batch_record_error_policy wState ["Great film", "", "Terrible film"] rfl

/-- C4 counterexample: a batch whose only item is blank has zero
successful items, and the simple FastAPI batch endpoint then fails with a
validation error instead of returning a summary whose average confidence
is zero. -/
theorem batch_average_confidence_cex :
    SimpleFastapi.predict_batch ("t0") [""] = Except.error ("No valid texts provided")
    ∧ ∀ resp : SimpleFastapi.BatchResponse,
        SimpleFastapi.predict_batch ("t0") [""] ≠ Except.ok resp := by
  have h : SimpleFastapi.predict_batch ("t0") [""] = Except.error ("No valid texts provided") := rfl
  exact ⟨h, fun resp hc => by rw [h] at hc; exact Except.noConfusion hc⟩

/-- C4 amended: the average confidence of the summary is the arithmetic
mean of the confidences of all reported results, each of which is a
successfully scored non-blank text; when no non-blank text remains, the
endpoint fails with the validation error No valid texts provided and no
summary is produced, so no division error occurs. -/
theorem batch_average_confidence_amended (now : String) (rawTexts : List String) :
    (SimpleFastapi.validTexts rawTexts = [] →
      SimpleFastapi.predict_batch now rawTexts = Except.error ("No valid texts provided"))
    ∧ (SimpleFastapi.validTexts rawTexts ≠ [] →
      ∃ resp : SimpleFastapi.BatchResponse,
        SimpleFastapi.predict_batch now rawTexts = Except.ok resp
        ∧ resp.results = (SimpleFastapi.validTexts rawTexts).map SimpleFastapi.mkBatchItem
        ∧ resp.summary.total_texts = resp.results.length
        ∧ resp.summary.average_confidence
            = ((resp.results.map (fun r => r.confidence)).sum) / ((resp.results.length : ℚ))) := by
  constructor
  · intro h
    simp [SimpleFastapi.predict_batch, h]
  · intro h
    simp only [SimpleFastapi.predict_batch, if_neg h]
    exact ⟨_, rfl, rfl, rfl, rfl⟩

/-- Witness for C4 amended at a two-item batch with one blank item. -/
theorem batch_average_confidence_amended_witness :
    SimpleFastapi.validTexts ["good", " "] ≠ []
    ∧ ∃ resp : SimpleFastapi.BatchResponse,
        SimpleFastapi.predict_batch ("t0") ["good", " "] = Except.ok resp
        ∧ resp.summary.average_confidence
            = ((resp.results.map (fun r => r.confidence)).sum) / ((resp.results.length : ℚ)) := by
  have h := (batch_average_confidence_amended ("t0") ["good", " "]).2 (by decide)
  obtain ⟨resp, h1, h2, h3, h4⟩ := h
  exact ⟨by decide, resp, h1, h4⟩

/-- Every piece produced by the whitespace split is non-empty and all its
characters satisfy the given predicate, provided the non-space input
characters and the accumulator characters do. -/
theorem splitWs_words : ∀ (cs acc : List Char),
    (∀ c ∈ cs, pyIsSpace c = false → pyIsWord c = true) →
    (∀ c ∈ acc, pyIsWord c = true) →
    ∀ w ∈ splitWs cs acc, w ≠ [] ∧ ∀ c ∈ w, pyIsWord c = true := by
  intro cs
  induction cs with
  | nil =>
    intro acc hcs hacc w hw
    simp only [splitWs] at hw
    by_cases h : acc = []
    · rw [if_pos h] at hw
      simp at hw
    · rw [if_neg h] at hw
      simp only [List.mem_singleton] at hw
      subst hw
      refine ⟨by simpa using h, ?_⟩
      intro c hc
      exact hacc c (List.mem_reverse.mp hc)
  | cons c cs ih =>
    intro acc hcs hacc w hw
    simp only [splitWs] at hw
    by_cases hsp : pyIsSpace c = true
    · rw [if_pos hsp] at hw
      by_cases h : acc = []
      · rw [if_pos h] at hw
        exact ih [] (fun d hd hds => hcs d (List.mem_cons_of_mem _ hd) hds) (by simp) w hw
      · rw [if_neg h] at hw
        rcases List.mem_cons.mp hw with h1 | h1
        · subst h1
          refine ⟨by simpa using h, ?_⟩
          intro d hd
          exact hacc d (List.mem_reverse.mp hd)
        · exact ih [] (fun d hd hds => hcs d (List.mem_cons_of_mem _ hd) hds) (by simp) w h1
    · rw [if_neg hsp] at hw
      refine ih (c :: acc) (fun d hd hds => hcs d (List.mem_cons_of_mem _ hd) hds) ?_ w hw
      intro d hd
      rcases List.mem_cons.mp hd with h1 | h1
      · subst h1
        exact hcs d (List.mem_cons_self _ _) (by simpa using hsp)
      · exact hacc d h1

/-- Every character surviving the cleaning step is a word character or a
whitespace character. -/
theorem cleanChars_mem (s : String) :
    ∀ c ∈ cleanChars s, pyIsSpace c = false → pyIsWord c = true := by
  intro c hc hsp
  have h2 := (List.mem_filter.mp hc).2
  rcases Bool.or_eq_true_iff.mp h2 with h3 | h3
  · exact h3
  · rw [h3] at hsp
    cases hsp

/-- Every token of the normalized text is non-empty and consists of word
characters only: punctuation is removed and whitespace only separates. -/
theorem pyTokens_words (s : String) :
    ∀ w ∈ pyTokens s, w.data ≠ [] ∧ ∀ c ∈ w.data, pyIsWord c = true := by
  intro w hw
  rw [pyTokens] at hw
  rcases List.mem_map.mp hw with ⟨l, hl, rfl⟩
  have h := splitWs_words (cleanChars s) [] (cleanChars_mem s) (by simp) l hl
  exact ⟨by simpa using h.1, by simpa using h.2⟩

/-- C5: single-text analysis fails with the validation error Text cannot
be empty exactly when the text is empty after trimming whitespace;
otherwise the stripped text is analyzed, its normalization lower-cases
the string, removes every character that is neither a word character nor
whitespace, and splits on runs of whitespace, so every token is non-empty
and made of word characters only, with no stemming or stop-word
removal. -/
theorem predict_validation_normalization (now raw : String) :
    (SimpleFastapi.predict now raw = Except.error ("Text cannot be empty") ↔ pyStrip raw = "")
    ∧ (pyStrip raw ≠ "" →
        SimpleFastapi.predict now raw = Except.ok
          { sentiment := (SimpleFastapi.simple_sentiment_analysis (pyStrip raw)).sentiment,
            confidence := (SimpleFastapi.simple_sentiment_analysis (pyStrip raw)).confidence,
            text := pyStrip raw,
            positive_words_found :=
              (SimpleFastapi.simple_sentiment_analysis (pyStrip raw)).positive_words_found,
            negative_words_found :=
              (SimpleFastapi.simple_sentiment_analysis (pyStrip raw)).negative_words_found,
            total_words := (SimpleFastapi.simple_sentiment_analysis (pyStrip raw)).total_words,
            timestamp := now })
    ∧ (SimpleFastapi.simple_sentiment_analysis (pyStrip raw)
        = analyze_words SimpleFastapi.positive_words SimpleFastapi.negative_words
            ((splitWs ((((pyStrip raw).data.map Char.toLower).filter
                (fun c => pyIsWord c || pyIsSpace c))) []).map String.mk))
    ∧ ∀ w ∈ pyTokens (pyStrip raw), w.data ≠ [] ∧ ∀ c ∈ w.data, pyIsWord c = true := by
  refine ⟨?_, ?_, rfl, pyTokens_words (pyStrip raw)⟩
  · constructor
    · intro h
      by_contra hne
      simp only [SimpleFastapi.predict, if_neg hne] at h
      exact Except.noConfusion h
    · intro h
      simp [SimpleFastapi.predict, h]
  · intro hne
    simp only [SimpleFastapi.predict, if_neg hne]

/-- Witness for C5: a blank input is rejected and a padded punctuated
input is analyzed. -/
theorem predict_validation_normalization_witness :
    SimpleFastapi.predict ("t0") ("   ") = Except.error ("Text cannot be empty")
    ∧ pyStrip ("  Great movie!!  ") ≠ ""
    ∧ SimpleFastapi.predict ("t0") ("  Great movie!!  ") = Except.ok
        { sentiment :=
            (SimpleFastapi.simple_sentiment_analysis (pyStrip ("  Great movie!!  "))).sentiment,
          confidence :=
            (SimpleFastapi.simple_sentiment_analysis (pyStrip ("  Great movie!!  "))).confidence,
          text := pyStrip ("  Great movie!!  "),
          positive_words_found :=
            (SimpleFastapi.simple_sentiment_analysis
              (pyStrip ("  Great movie!!  "))).positive_words_found,
          negative_words_found :=
            (SimpleFastapi.simple_sentiment_analysis
              (pyStrip ("  Great movie!!  "))).negative_words_found,
          total_words :=
            (SimpleFastapi.simple_sentiment_analysis (pyStrip ("  Great movie!!  "))).total_words,
          timestamp := "t0" } :=
  ⟨(predict_validation_normalization ("t0") ("   ")).1.mpr (by decide),
   by decide,
   (predict_validation_normalization ("t0") ("  Great movie!!  ")).2.1 (by decide)⟩

/-- C9: analysis is deterministic: with the lexicon fixed, repeated calls
on the same text return identical results, and the single-prediction
response depends on the clock only through its timestamp field, every
other field being identical across calls. -/
theorem analysis_deterministic (now1 now2 raw : String) :
    SimpleFastapi.simple_sentiment_analysis raw = SimpleFastapi.simple_sentiment_analysis raw
    ∧ (SimpleFastapi.predict now1 raw).map responseCore
        = (SimpleFastapi.predict now2 raw).map responseCore
    ∧ SimpleFastapi.predict now1 raw = SimpleFastapi.predict now1 raw := by
  refine ⟨rfl, ?_, rfl⟩
  by_cases h : pyStrip raw = ""
  · simp [SimpleFastapi.predict, h]
  · simp [SimpleFastapi.predict, if_neg h, Except.map, responseCore]

/-- C10: the rule-based scorer is total; on a text whose cleaned form has
no tokens at all it returns neutral with confidence 0.5 and zero counts,
in both simple servers. -/
theorem scorer_total_zero_tokens (text : String) (h : pyTokens text = []) :
    SimpleFastapi.simple_sentiment_analysis text
      = { sentiment := Sentiment.neutral, confidence := 1/2,
          positive_words_found := 0, negative_words_found := 0, total_words := 0 }
    ∧ SimpleFlask.simple_sentiment_analysis text
      = { sentiment := Sentiment.neutral, confidence := 1/2,
          positive_words_found := 0, negative_words_found := 0 } := by
  constructor
  · show analyze_words _ _ (pyTokens text) = _
    rw [h]
    rfl
  · simp only [SimpleFlask.simple_sentiment_analysis, h]
    rfl

/-- Witness for C10 at a text of punctuation and whitespace only. -/
theorem scorer_total_zero_tokens_witness :
    SimpleFastapi.simple_sentiment_analysis ("?!? ... !!")
      = { sentiment := Sentiment.neutral, confidence := 1/2,
          positive_words_found := 0, negative_words_found := 0, total_words := 0 }
    ∧ SimpleFlask.simple_sentiment_analysis ("?!? ... !!")
      = { sentiment := Sentiment.neutral, confidence := 1/2,
          positive_words_found := 0, negative_words_found := 0 } :=
  scorer_total_zero_tokens ("?!? ... !!") (by decide)

/-- Decomposition of the simple FastAPI positive list into the simple
Flask positive list followed by the five extra words. -/
theorem fastapi_positive_split :
    SimpleFastapi.positive_words = SimpleFlask.positive_words ++ extra_positive_words := rfl

/-- Decomposition of the simple FastAPI negative list into the simple
Flask negative list followed by the five extra words. -/
theorem fastapi_negative_split :
    SimpleFastapi.negative_words = SimpleFlask.negative_words ++ extra_negative_words := rfl

/-- C8 counterexample: on the input best the two rule-based scorers
disagree, because the word best is in the positive list of the simple
FastAPI server only: that server answers positive with confidence 0.7,
the simple Flask server answers neutral with confidence 0.5. -/
theorem simple_servers_divergence_cex :
    (SimpleFastapi.simple_sentiment_analysis ("best")).sentiment = Sentiment.positive
    ∧ (SimpleFlask.simple_sentiment_analysis ("best")).sentiment = Sentiment.neutral
    ∧ (SimpleFastapi.simple_sentiment_analysis ("best")).sentiment
        ≠ (SimpleFlask.simple_sentiment_analysis ("best")).sentiment
    ∧ (SimpleFastapi.simple_sentiment_analysis ("best")).confidence = 7/10
    ∧ (SimpleFlask.simple_sentiment_analysis ("best")).confidence = 1/2
    ∧ (7 : ℚ)/10 ≠ 1/2 := by
  have hfa : SimpleFastapi.simple_sentiment_analysis ("best")
      = analyze_words SimpleFastapi.positive_words SimpleFastapi.negative_words
          (pyTokens ("best")) := rfl
  have hp : (pyTokens ("best")).countP
      (fun w => decide (w ∈ SimpleFastapi.positive_words)) = 1 := by decide
  have hn : (pyTokens ("best")).countP
      (fun w => decide (w ∈ SimpleFastapi.negative_words)) = 0 := by decide
  have hp2 : (pyTokens ("best")).countP
      (fun w => decide (w ∈ SimpleFlask.positive_words)) = 0 := by decide
  have hn2 : (pyTokens ("best")).countP
      (fun w => decide (w ∈ SimpleFlask.negative_words)) = 0 := by decide
  have hfc : (SimpleFastapi.simple_sentiment_analysis ("best")).confidence = 7/10 := by
    rw [hfa, analyze_words_spec]
    simp only [hp, hn]
    norm_num
  have hlc : (SimpleFlask.simple_sentiment_analysis ("best")).confidence = 1/2 := by
    show (analyze_words SimpleFlask.positive_words SimpleFlask.negative_words
        (pyTokens ("best"))).confidence = 1/2
    rw [analyze_words_spec]
    simp only [hp2, hn2]
    norm_num
  refine ⟨by decide, by decide, by decide, hfc, hlc, by norm_num⟩

/-- C8 amended: the two rule-based scorers share the decision rule and
normalization, and agree, in sentiment and in confidence, on every text
none of whose tokens is one of the ten words present only in the simple
FastAPI lists; they diverge on texts containing such a word. -/
theorem simple_servers_agree_amended (text : String)
    (h : ∀ w ∈ pyTokens text, w ∉ extra_positive_words ∧ w ∉ extra_negative_words) :
    (SimpleFastapi.simple_sentiment_analysis text).sentiment
        = (SimpleFlask.simple_sentiment_analysis text).sentiment
    ∧ (SimpleFastapi.simple_sentiment_analysis text).confidence
        = (SimpleFlask.simple_sentiment_analysis text).confidence := by
  have hp : (pyTokens text).countP (fun w => decide (w ∈ SimpleFastapi.positive_words))
      = (pyTokens text).countP (fun w => decide (w ∈ SimpleFlask.positive_words)) := by
    apply List.countP_congr
    intro w hw
    rw [fastapi_positive_split]
    simp only [decide_eq_true_eq, List.mem_append]
    constructor
    · rintro (h1 | h1)
      · exact h1
      · exact absurd h1 (h w hw).1
    · exact Or.inl
  have hn : (pyTokens text).countP (fun w => decide (w ∈ SimpleFastapi.negative_words))
      = (pyTokens text).countP (fun w => decide (w ∈ SimpleFlask.negative_words)) := by
    apply List.countP_congr
    intro w hw
    rw [fastapi_negative_split]
    simp only [decide_eq_true_eq, List.mem_append]
    constructor
    · rintro (h1 | h1)
      · exact h1
      · exact absurd h1 (h w hw).2
    · exact Or.inl
  have key : analyze_words SimpleFastapi.positive_words SimpleFastapi.negative_words
        (pyTokens text)
      = analyze_words SimpleFlask.positive_words SimpleFlask.negative_words (pyTokens text) := by
    rw [analyze_words_spec, analyze_words_spec, hp, hn]
  constructor
  · show (analyze_words _ _ _).sentiment = _
    rw [key]
    rfl
  · show (analyze_words _ _ _).confidence = _
    rw [key]
    rfl

/-- Witness for C8 amended at a text avoiding the ten extra words. -/
theorem simple_servers_agree_amended_witness :
    (∀ w ∈ pyTokens ("a good watchable movie"),
        w ∉ extra_positive_words ∧ w ∉ extra_negative_words)
    ∧ (SimpleFastapi.simple_sentiment_analysis ("a good watchable movie")).sentiment
        = (SimpleFlask.simple_sentiment_analysis ("a good watchable movie")).sentiment
    ∧ (SimpleFastapi.simple_sentiment_analysis ("a good watchable movie")).confidence
        = (SimpleFlask.simple_sentiment_analysis ("a good watchable movie")).confidence :=
  ⟨by decide,
   (simple_servers_agree_amended ("a good watchable movie") (by decide)).1,
   (simple_servers_agree_amended ("a good watchable movie") (by decide)).2⟩

/-- Maximum of the empty list only. -/
theorem listMax_eq_none_iff (l : List ℚ) : ModelApi.listMax l = none ↔ l = [] := by
  cases l with
  | nil => simp [ModelApi.listMax]
  | cons x xs =>
    cases hx : ModelApi.listMax xs <;> simp [ModelApi.listMax, hx]

/-- Membership of the list maximum. -/
theorem listMax_mem : ∀ (l : List ℚ) (m : ℚ), ModelApi.listMax l = some m → m ∈ l := by
  intro l
  induction l with
  | nil => intro m h; cases h
  | cons x xs ih =>
    intro m h
    simp only [ModelApi.listMax] at h
    cases hx : ModelApi.listMax xs with
    | none =>
      rw [hx] at h
      cases h
      exact List.mem_cons_self _ _
    | some m2 =>
      rw [hx] at h
      cases h
      rcases max_choice x m2 with hc | hc
      · rw [hc]; exact List.mem_cons_self _ _
      · rw [hc]; exact List.mem_cons_of_mem _ (ih m2 hx)

/-- Upper-bound property of the list maximum. -/
theorem listMax_le : ∀ (l : List ℚ) (m a : ℚ), ModelApi.listMax l = some m → a ∈ l → a ≤ m := by
  intro l
  induction l with
  | nil => intro m a h; cases h
  | cons x xs ih =>
    intro m a h ha
    simp only [ModelApi.listMax] at h
    cases hx : ModelApi.listMax xs with
    | none =>
      rw [hx] at h
      cases h
      have hxs : xs = [] := (listMax_eq_none_iff xs).mp hx
      subst hxs
      simp only [List.mem_singleton] at ha
      subst ha
      exact le_refl _
    | some m2 =>
      rw [hx] at h
      cases h
      rcases List.mem_cons.mp ha with h1 | h1
      · subst h1; exact le_max_left _ _
      · exact le_trans (ih m2 a hx h1) (le_max_right _ _)

/-- C6: with a fully loaded bundle, the model strategy reports as
confidence the maximum entry of the class-probability vector of the
vectorized, preprocessed text, reports positive exactly when the
predicted class is 1 and negative otherwise, and never reports
neutral. -/
theorem model_strategy_result {F D : Type} (pre : String → String) (vec : String → F)
    (clf : ModelApi.Classifier F) (md : D) (text : String) (r : ModelApi.ModelPrediction)
    (h : ModelApi.predict_sentiment
        { model := some clf, vectorizer := some vec, preprocessing_functions := some pre,
          metadata := some md } text = Except.ok r) :
    r.confidence ∈ clf.cproba (vec (pre text))
    ∧ (∀ p ∈ clf.cproba (vec (pre text)), p ≤ r.confidence)
    ∧ r.sentiment
        = (if clf.cpredict (vec (pre text)) = 1 then Sentiment.positive else Sentiment.negative)
    ∧ r.sentiment ≠ Sentiment.neutral := by
  simp only [ModelApi.predict_sentiment] at h
  cases hx : ModelApi.listMax (clf.cproba (vec (pre text))) with
  | none =>
    rw [hx] at h
    cases h
  | some m =>
    rw [hx] at h
    cases h
    refine ⟨listMax_mem _ _ hx, fun p hp => listMax_le _ _ _ hx hp, rfl, ?_⟩
    by_cases hc : clf.cpredict (vec (pre text)) = 1 <;> simp [hc]

/-- Witness for C6 at a concrete bundle whose probability vector is
0.1, 0.9 and whose predicted class is 1. -/
theorem model_strategy_result_witness :
    ModelApi.predict_sentiment wState ("great")
        = Except.ok { sentiment := Sentiment.positive, confidence := max ((1 : ℚ)/10) (9/10),
                      processed_text := "great", original_text := "great" }
    ∧ (max ((1 : ℚ)/10) (9/10)) ∈ wClassifier.cproba ()
    ∧ (Sentiment.positive ≠ Sentiment.neutral) := by
  have h : ModelApi.predict_sentiment wState ("great")
      = Except.ok { sentiment := Sentiment.positive, confidence := max ((1 : ℚ)/10) (9/10),
                    processed_text := "great", original_text := "great" } := rfl
  have h2 := model_strategy_result (fun s => s) (fun _ => ()) wClassifier () ("great") _ h
  exact ⟨h, h2.1, h2.2.2.2⟩

/-- C7 counterexample: when the model artifact loads but the vectorizer
artifact fails, loading reports failure yet leaves the model global set;
a request on that partial state passes the bundle check, attempts the
pipeline, and fails with the prediction error instead of the
model-unavailable error. -/
theorem bundle_check_cex :
    (ModelApi.load_model_components (ModelApi.initialState Unit Unit)
        (some wClassifier) none none none).2 = false
    ∧ ((ModelApi.load_model_components (ModelApi.initialState Unit Unit)
        (some wClassifier) none none none).1).model.isSome = true
    ∧ ModelApi.predict ((ModelApi.load_model_components (ModelApi.initialState Unit Unit)
        (some wClassifier) none none none).1) ("hello")
        = Except.error ("Error making prediction")
    ∧ (Except.error ("Error making prediction") : Except String ModelApi.ModelPrediction)
        ≠ Except.error ("Model not loaded") := by
  refine ⟨rfl, rfl, rfl, ?_⟩
  intro h
  exact absurd (Except.error.inj h) (by decide)

/-- The pipeline never produces the model-unavailable error message. -/
theorem predict_sentiment_not_unavailable {F D : Type} (st : ModelApi.ModelState F D)
    (text : String) :
    ModelApi.predict_sentiment st text ≠ Except.error ("Model not loaded") := by
  intro h
  rcases hp : st.preprocessing_functions with _ | pre <;>
    rcases hv : st.vectorizer with _ | vec <;>
      rcases hm : st.model with _ | clf <;>
        simp only [ModelApi.predict_sentiment, hp, hv, hm] at h <;>
          try exact absurd (Except.error.inj h) (by decide)
  cases hx : ModelApi.listMax (clf.cproba (vec (pre text))) with
  | none => rw [hx] at h; exact absurd (Except.error.inj h) (by decide)
  | some m => rw [hx] at h; exact Except.noConfusion h

/-- C7 amended: the bundle check runs before any pipeline computation and
the request fails with the model-unavailable error exactly when the model
component is absent; the startup loader succeeds exactly when all four
components load, in which case the resulting state is fully populated,
but the per-request check inspects only the model component, so a partial
state with the model present is attempted and fails with the prediction
error instead. -/
theorem bundle_check_amended {F D : Type} (st : ModelApi.ModelState F D) (text : String)
    (am : Option (ModelApi.Classifier F)) (av : Option (String → F))
    (ap : Option (String → String)) (ad : Option D) :
    (ModelApi.predict st text = Except.error ("Model not loaded") ↔ st.model = none)
    ∧ ((ModelApi.load_model_components (ModelApi.initialState F D) am av ap ad).2 = true
        ↔ (am.isSome = true ∧ av.isSome = true ∧ ap.isSome = true ∧ ad.isSome = true))
    ∧ ((ModelApi.load_model_components (ModelApi.initialState F D) am av ap ad).2 = true →
        ((ModelApi.load_model_components (ModelApi.initialState F D) am av ap ad).1.model.isSome
            = true
          ∧ (ModelApi.load_model_components
              (ModelApi.initialState F D) am av ap ad).1.vectorizer.isSome = true
          ∧ (ModelApi.load_model_components
              (ModelApi.initialState F D) am av ap ad).1.preprocessing_functions.isSome = true
          ∧ (ModelApi.load_model_components
              (ModelApi.initialState F D) am av ap ad).1.metadata.isSome = true)) := by
  refine ⟨?_, ?_, ?_⟩
  · cases hm : st.model with
    | none => simp [ModelApi.predict, hm]
    | some m =>
      rw [ModelApi.predict, if_neg (by rw [hm]; simp)]
      constructor
      · intro h
        exact absurd h (predict_sentiment_not_unavailable st text)
      · intro h
        exact Option.noConfusion h
  · rcases am with _ | m <;> rcases av with _ | v <;> rcases ap with _ | p <;>
      rcases ad with _ | d <;> simp [ModelApi.load_model_components]
  · rcases am with _ | m <;> rcases av with _ | v <;> rcases ap with _ | p <;>
      rcases ad with _ | d <;> simp [ModelApi.load_model_components]

/-- Witness for C7 amended at the fully loaded concrete bundle. -/
theorem bundle_check_amended_witness :
    (ModelApi.predict wState ("hello") = Except.error ("Model not loaded")
      ↔ wState.model = none)
    ∧ ((ModelApi.load_model_components (ModelApi.initialState Unit Unit) (some wClassifier)
        (some (fun _ => ())) (some (fun s => s)) (some ())).2 = true
        ↔ ((some wClassifier).isSome = true ∧ (some (fun _ => ()) : Option (Unit → Unit)).isSome = true
            ∧ (some (fun s => s) : Option (String → String)).isSome = true
            ∧ (some () : Option Unit).isSome = true)) := by
  have h := bundle_check_amended wState ("hello") (some wClassifier)
    (some (fun _ => ())) (some (fun s => s)) (some ())
  exact ⟨h.1, h.2.1⟩

end ImdbModel
